import Mathlib

/-!
Shallow embedding of the crypto mortgage prospecting service
(`services/crypto_prospecting.py`) of the Seraphai repository.

Modelling conventions:
* Python floats are modelled as exact rationals (ℚ); Python ints as ℤ/ℕ.
* `round(x, d)` is modelled as rounding `x` to the nearest multiple of
  `10^(-d)` (ties rounded up; Python uses round-half-even, which differs
  only on exact half-ulp ties — no theorem below depends on the tie
  direction, only on the half-ulp tolerance `|round(x,d) - x| ≤ 10^(-d)/2`).
* `datetime` values are modelled by their epoch timestamps in seconds;
  `(datetime.now() - datetime.fromtimestamp(ts)).days` is floor division
  of the difference by 86400 (Python's `timedelta.days` floors), i.e.
  `Int.fdiv`.  ISO date strings round-trip through
  `isoformat`/`fromisoformat`, so the two date fields of a metrics record
  are modelled by the underlying timestamp (`Option ℤ`, `none` = Python
  `None`).
* Provider records are modelled by structures holding the fields the code
  reads (`to`, `functionName`, `timeStamp`, `tokenSymbol`); a missing
  string key behaves as the corresponding `.get` default and is modelled
  by that default value.  The raw `timeStamp` value is modelled by `TsVal`:
  a missing key (`.get("timeStamp", 0)` → 0), a parseable integer string,
  or garbage on which Python's `int()` raises.  Code paths that can raise
  are modelled with `Except String`.
* String lowercasing is ASCII `Char.toLower` (the protocol names and
  keywords being searched are ASCII).
-/

namespace Seraphai

/-! ### Rounding (Python `round(x, d)` on exact rationals) -/

/-- Nearest integer to a rational, ties up: `⌊x + 1/2⌋`, computed on
numerator and denominator so the kernel can evaluate it. -/
def qround (x : ℚ) : ℤ :=
  (2 * x.num + (x.den : ℤ)) / (2 * (x.den : ℤ))

/-- Python `round(x, d)`: round to `d` decimal places. -/
def pyround (d : ℕ) (x : ℚ) : ℚ :=
  (qround (x * 10 ^ d) : ℚ) / 10 ^ d

theorem qround_eq_round (x : ℚ) : qround x = round x := by
  have hd0 : (0 : ℚ) < (x.den : ℚ) := by exact_mod_cast x.den_pos
  have hx : (x.num : ℚ) = x * (x.den : ℚ) := (Rat.mul_den_eq_num x).symm
  have key : x + 1 / 2 =
      ((2 * x.num + (x.den : ℤ) : ℤ) : ℚ) / ((2 * x.den : ℕ) : ℚ) := by
    push_cast
    field_simp
    rw [hx]
    ring
  rw [round_eq, key, Rat.floor_intCast_div_natCast]
  unfold qround
  push_cast
  ring_nf

theorem abs_pyround_sub (d : ℕ) (x : ℚ) :
    |pyround d x - x| ≤ 1 / (2 * 10 ^ d) := by
  have h10 : (0 : ℚ) < 10 ^ d := by positivity
  have h := abs_sub_round (x * 10 ^ d)
  rw [abs_sub_comm] at h
  unfold pyround
  rw [qround_eq_round]
  have hrw : (round (x * 10 ^ d) : ℚ) / 10 ^ d - x =
      ((round (x * 10 ^ d) : ℚ) - x * 10 ^ d) / 10 ^ d := by
    field_simp
    ring
  rw [hrw, abs_div, abs_of_pos h10, div_le_div_iff₀ h10 (by positivity)]
  calc |(round (x * 10 ^ d) : ℚ) - x * 10 ^ d| * (2 * 10 ^ d)
      ≤ (1 / 2) * (2 * 10 ^ d) := by
        apply mul_le_mul_of_nonneg_right h (by positivity)
    _ = 1 * 10 ^ d := by ring

theorem pyround_nonneg (d : ℕ) (x : ℚ) (hx : 0 ≤ x) : 0 ≤ pyround d x := by
  unfold pyround
  have : (0 : ℤ) ≤ qround (x * 10 ^ d) := by
    rw [qround_eq_round, round_eq]
    have : (0 : ℚ) ≤ x * 10 ^ d + 1 / 2 := by positivity
    exact Int.floor_nonneg.mpr this
  positivity

/-! ### String helpers (Python `in` on strings, `.lower()`) -/

/-- Predicate `startsAt needle hay`: `needle` is a leading block of `hay`. -/
def startsAt : List Char → List Char → Bool
  | [], _ => true
  | _ :: _, [] => false
  | a :: as, b :: bs => a == b && startsAt as bs

/-- Predicate `hasSubList needle hay`: `needle` occurs contiguously in `hay`. -/
def hasSubList (needle : List Char) : List Char → Bool
  | [] => needle.isEmpty
  | b :: bs => startsAt needle (b :: bs) || hasSubList needle bs

/-- Python `needle in hay` for strings. -/
def strHas (needle hay : String) : Bool :=
  hasSubList needle.toList hay.toList

/-- Python `s.lower()` (ASCII). -/
def lowerStr (s : String) : String := s.map Char.toLower

/-! ### Raw provider data -/

/-- The raw `timeStamp` field of an Etherscan transaction record, as
consumed by `int(tx.get("timeStamp", 0))`: a missing key yields the
default `0`, a well-formed decimal string yields its value, anything
else makes `int()` raise `ValueError`. -/
inductive TsVal where
  | missing : TsVal
  | val : ℤ → TsVal
  | garbage : TsVal
deriving DecidableEq

/-- Result of `int(tx.get("timeStamp", 0))`: `none` means `int()` raises. -/
def parseTs : TsVal → Option ℤ
  | .missing => some 0
  | .val n => some n
  | .garbage => none

/-- An Etherscan transaction record, restricted to the fields the code
reads.  `payload` stands for the text of the record's remaining serialized
fields (hashes, values, the raw `timeStamp` text, ...): the
`"stake" in str(transactions)` scan in `_classify_behavior` searches the
whole serialized record, and since the serialization separators contain no
letters, a match of the letter-only patterns `"stake"`/`"farm"` lies
entirely inside one field's text. -/
structure RawTx where
  toAddr : String
  functionName : String
  timeStamp : TsVal
  payload : String
deriving DecidableEq

/-- An ERC20 token-transfer record (`tokentx`), restricted to the one field
the code reads. -/
structure RawTokenTx where
  tokenSymbol : String
deriving DecidableEq

/-- Outcome of `_get_wallet_balance` as seen by `analyze_wallet`:
`ok wei` models a status-1 response whose `result` parsed as an integer
(`int(data.get("result", 0))`); `fail` models every caught failure path,
which returns `{"balance_eth": 0, "success": False}`. -/
inductive BalanceResp where
  | fail : BalanceResp
  | ok : ℤ → BalanceResp
deriving DecidableEq

/-- The external world as seen by one analysis pass: the ETH price that
`_get_eth_price` returned (cache and fallback already resolved to a
value), the per-address provider results after the Chain Data Gateway's
fail-soft normalization (`[]` on any failure), and the current time
`datetime.now()` in epoch seconds. -/
structure Env where
  ethPrice : ℚ
  balance : String → BalanceResp
  txs : String → List RawTx
  tokenTxs : String → List RawTokenTx
  now : ℤ

/-! ### Enumerations -/

/-- Enum `WalletBehavior`. -/
inductive WalletBehavior where
  | hodler | accumulator | active_trader | defi_power_user
  | yield_farmer | whale | dormant
deriving DecidableEq

/-- The `.value` string of each `WalletBehavior` member. -/
def WalletBehavior.value : WalletBehavior → String
  | .hodler => "hodler"
  | .accumulator => "accumulator"
  | .active_trader => "active_trader"
  | .defi_power_user => "defi_power_user"
  | .yield_farmer => "yield_farmer"
  | .whale => "whale"
  | .dormant => "dormant"

/-- Enum `RiskTier`. -/
inductive RiskTier where
  | prime | near_prime | subprime | unqualified
deriving DecidableEq

/-- The `.value` string of each `RiskTier` member. -/
def RiskTier.value : RiskTier → String
  | .prime => "prime"
  | .near_prime => "near_prime"
  | .subprime => "subprime"
  | .unqualified => "unqualified"

/-- Rank in the qualification ordering
`unqualified < subprime < near_prime < prime`. -/
def RiskTier.rank : RiskTier → ℕ
  | .unqualified => 0
  | .subprime => 1
  | .near_prime => 2
  | .prime => 3

/-! ### Behavior classification (`_classify_behavior`) -/

/-- The `known_defi` list of `_classify_behavior`. -/
def knownDefiClassify : List String :=
  ["uniswap", "aave", "compound", "curve", "maker", "lido", "sushiswap"]

/-- One transaction mentions the protocol in its `to` address or function
name (case-insensitive substring). -/
def txMatchesProtocol (p : String) (tx : RawTx) : Bool :=
  strHas p (lowerStr tx.toAddr) || strHas p (lowerStr tx.functionName)

/-- Number of distinct known DeFi protocols mentioned across the
transactions (the size of the `defi_protocols` set built by
`_classify_behavior`). -/
def defiProtocolsClassify (transactions : List RawTx) : ℕ :=
  (knownDefiClassify.filter (fun p => transactions.any (txMatchesProtocol p))).length

/-- Quantity `tx_per_month` of `_classify_behavior`. -/
def txPerMonth (txCount : ℕ) (walletAgeDays : ℤ) : ℚ :=
  if 0 < walletAgeDays then ((txCount : ℚ) / (walletAgeDays : ℚ)) * 30
  else (txCount : ℚ)

/-- Check `"stake" in str(transactions).lower() or "farm" in str(transactions).lower()`. -/
def txTextHasStakeOrFarm (transactions : List RawTx) : Bool :=
  transactions.any (fun tx =>
    strHas "stake" (lowerStr tx.toAddr) || strHas "farm" (lowerStr tx.toAddr) ||
    strHas "stake" (lowerStr tx.functionName) || strHas "farm" (lowerStr tx.functionName) ||
    strHas "stake" (lowerStr tx.payload) || strHas "farm" (lowerStr tx.payload))

/-- Method `_classify_behavior(transactions, wallet_age_days, total_value)`. -/
def classify_behavior (transactions : List RawTx) (wallet_age_days : ℤ)
    (total_value : ℚ) : WalletBehavior :=
  if transactions.isEmpty then .dormant
  else
    let tx_per_month := txPerMonth transactions.length wallet_age_days
    if 1000000 ≤ total_value then .whale
    else if 3 ≤ defiProtocolsClassify transactions then .defi_power_user
    else if 20 < tx_per_month then .active_trader
    else if 2 ≤ tx_per_month ∧ tx_per_month ≤ 10 then .accumulator
    else if tx_per_month < 2 ∧ 365 < wallet_age_days then .hodler
    else if txTextHasStakeOrFarm transactions then .yield_farmer
    else .accumulator

/-! ### Data model -/

/-- Dataclass `WalletMetrics`. -/
structure WalletMetrics where
  address : String
  total_value_usd : ℚ
  eth_balance : ℚ
  token_count : ℕ
  nft_count : ℕ
  first_transaction_date : Option ℤ
  last_transaction_date : Option ℤ
  transaction_count : ℕ
  wallet_age_days : ℤ
  avg_hold_time_days : ℚ
  largest_single_holding_pct : ℚ
  defi_protocol_count : ℕ
  staking_positions : ℕ
  has_ens : Bool
  ens_name : Option String
  behavior_type : String
  diversification_score : ℚ
deriving DecidableEq

/-- A `{type, value, note}` contact-method record. -/
structure ContactMethod where
  type : String
  value : String
  note : String
deriving DecidableEq

/-- Dataclass `MortgageQualificationScore`. -/
structure MortgageQualificationScore where
  wallet_address : String
  overall_score : ℚ
  risk_tier : String
  wealth_score : ℚ
  stability_score : ℚ
  behavior_score : ℚ
  liquidity_score : ℚ
  verification_score : ℚ
  estimated_annual_income : ℚ
  estimated_net_worth : ℚ
  max_mortgage_amount : ℚ
  recommended_ltv : ℚ
  positive_signals : List String
  risk_flags : List String
  recommendations : List String
  contact_methods : List ContactMethod
  outreach_priority : String
deriving DecidableEq

/-- Dataclass `ProspectLead`.  `last_active` keeps the
`last_transaction_date or "unknown"` choice as an `Option`
(`none` = the string `"unknown"`). -/
structure ProspectLead where
  wallet_address : String
  qualification_score : ℚ
  risk_tier : String
  estimated_value : ℚ
  behavior_type : String
  contact_methods : List ContactMethod
  last_active : Option ℤ
  priority : String
  notes : List String
deriving DecidableEq

/-! ### Scoring weights (class constants) -/

def WEALTH_WEIGHT : ℚ := 30 / 100
def STABILITY_WEIGHT : ℚ := 25 / 100
def BEHAVIOR_WEIGHT : ℚ := 20 / 100
def LIQUIDITY_WEIGHT : ℚ := 15 / 100
def VERIFICATION_WEIGHT : ℚ := 10 / 100

/-! ### Diversification (`_calculate_diversification`) -/

/-- Maximum of a list of rationals, Python `max` style (`0` stands in for
the empty case, which is never reached: the holdings dict always contains
the `"ETH"` key). -/
def listMax : List ℚ → ℚ
  | [] => 0
  | x :: xs => xs.foldl max x

/-- The keys of the `holdings` dict: `"ETH"` plus each distinct observed
token symbol (a token whose symbol is literally `"ETH"` is merged into the
`"ETH"` entry, as in the Python dict). -/
def holdingsSymbols (token_holdings : List RawTokenTx) : List String :=
  "ETH" :: ((token_holdings.map (·.tokenSymbol)).dedup.filter (· ≠ "ETH"))

/-- The value of one `holdings` entry: the ETH position in USD for the
`"ETH"` key, plus `+1` per token-transfer record with that symbol. -/
def holdingValue (eth_usd : ℚ) (token_holdings : List RawTokenTx)
    (k : String) : ℚ :=
  (if k = "ETH" then eth_usd else 0) +
    ((token_holdings.filter (·.tokenSymbol = k)).length : ℚ)

/-- Method `_calculate_diversification(eth_balance, token_holdings, eth_price)`. -/
def calculate_diversification (eth_balance : ℚ)
    (token_holdings : List RawTokenTx) (eth_price : ℚ) : ℚ :=
  let keys := holdingsSymbols token_holdings
  let total_positions := keys.length
  if total_positions = 0 then 0
  else
    let diversification := min 100 ((total_positions : ℚ) / 20 * 100)
    let vals := keys.map (holdingValue (eth_balance * eth_price) token_holdings)
    let total_value := vals.sum
    let diversification :=
      if 0 < total_value then
        let max_concentration := listMax vals / total_value
        if 1 / 2 < max_concentration then
          diversification * (1 - (max_concentration - 1 / 2))
        else diversification
      else diversification
    pyround 2 diversification

/-- Method `_resolve_ens(address)`: stub, always `None`. -/
def resolve_ens (_address : String) : Option String := none

/-! ### Feature extractor (`analyze_wallet`) -/

/-- The `known_defi` list used inside `analyze_wallet` (it differs from the
one in `_classify_behavior`: `yearn` instead of `sushiswap`). -/
def knownDefiAnalyze : List String :=
  ["uniswap", "aave", "compound", "curve", "maker", "lido", "yearn"]

/-- Count `defi_protocol_count` computed by `analyze_wallet` (only the `to`
address is searched here, not the function name). -/
def defiProtocolsAnalyze (transactions : List RawTx) : ℕ :=
  (knownDefiAnalyze.filter
    (fun p => transactions.any (fun tx => strHas p (lowerStr tx.toAddr)))).length

/-- The wallet-age/date block of `analyze_wallet`: parses
`transactions[-1]` and `transactions[0]` timestamps (raising on garbage),
treats a 0 timestamp as falsy, and floors the age to whole days. -/
def dateInfo (now : ℤ) (transactions : List RawTx) :
    Except String (Option ℤ × Option ℤ × ℤ) :=
  match transactions.getLast?, transactions.head? with
  | some txFirst, some txLast =>
    match parseTs txFirst.timeStamp, parseTs txLast.timeStamp with
    | some firstTs, some lastTs =>
      .ok (if firstTs ≠ 0 then some firstTs else none,
           if lastTs ≠ 0 then some lastTs else none,
           if firstTs ≠ 0 then Int.fdiv (now - firstTs) 86400 else 0)
    | _, _ => .error "invalid literal for int() with base 10"
  | _, _ => .ok (none, none, 0)

/-- Method `analyze_wallet(address)`. -/
def analyze_wallet (env : Env) (address : String) :
    Except String WalletMetrics :=
  let eth_price := env.ethPrice
  let eth_balance : ℚ :=
    match env.balance address with
    | .ok wei => (wei : ℚ) / 1000000000000000000
    | .fail => 0
  let transactions := env.txs address
  let token_holdings := env.tokenTxs address
  match dateInfo env.now transactions with
  | .error e => .error e
  | .ok (first_tx_date, last_tx_date, wallet_age_days) =>
    let total_value0 := eth_balance * eth_price
    let token_count := (token_holdings.map (·.tokenSymbol)).dedup.length
    let estimated_token_value :=
      min ((token_count : ℚ) * 1000) (total_value0 * (1 / 2))
    let total_value := total_value0 + estimated_token_value
    let behavior := classify_behavior transactions wallet_age_days total_value
    let diversification :=
      calculate_diversification eth_balance token_holdings eth_price
    let avg_hold_time : ℚ :=
      if 0 < wallet_age_days then (wallet_age_days : ℚ) * (6 / 10) else 0
    let eth_pct : ℚ :=
      if 0 < total_value then eth_balance * eth_price / total_value * 100
      else 100
    let ens_name := resolve_ens address
    .ok {
      address := address
      total_value_usd := pyround 2 total_value
      eth_balance := pyround 4 eth_balance
      token_count := token_count
      nft_count := 0
      first_transaction_date := first_tx_date
      last_transaction_date := last_tx_date
      transaction_count := transactions.length
      wallet_age_days := wallet_age_days
      avg_hold_time_days := pyround 1 avg_hold_time
      largest_single_holding_pct := pyround 2 eth_pct
      defi_protocol_count := defiProtocolsAnalyze transactions
      staking_positions := 0
      has_ens := ens_name.isSome
      ens_name := ens_name
      behavior_type := behavior.value
      diversification_score := diversification }

/-! ### Component scores -/

/-- Method `_calculate_wealth_score(metrics)`. -/
def calculate_wealth_score (metrics : WalletMetrics) : ℚ :=
  let value := metrics.total_value_usd
  if value < 50000 then min 30 (value / 50000 * 30)
  else if value < 100000 then 30 + (value - 50000) / 50000 * 20
  else if value < 250000 then 50 + (value - 100000) / 150000 * 20
  else if value < 500000 then 70 + (value - 250000) / 250000 * 15
  else if value < 1000000 then 85 + (value - 500000) / 500000 * 10
  else min 100 (95 + min 5 ((value - 1000000) / 1000000 * 5))

/-- Method `_calculate_stability_score(metrics)`. -/
def calculate_stability_score (metrics : WalletMetrics) : ℚ :=
  let score : ℚ :=
    if 730 ≤ metrics.wallet_age_days then 40
    else if 365 ≤ metrics.wallet_age_days then 30
    else if 180 ≤ metrics.wallet_age_days then 20
    else (metrics.wallet_age_days : ℚ) / 180 * 20
  let score :=
    if 365 ≤ metrics.avg_hold_time_days then score + 30
    else if 180 ≤ metrics.avg_hold_time_days then score + 20
    else score + metrics.avg_hold_time_days / 180 * 20
  let score := score + metrics.diversification_score * (3 / 10)
  min 100 score

/-- The `behavior_scores` lookup table of `_calculate_behavior_score`
(`dict.get(behavior, 50)`). -/
def behaviorBaseScore (behavior : String) : ℚ :=
  if behavior = "hodler" then 85
  else if behavior = "accumulator" then 90
  else if behavior = "whale" then 80
  else if behavior = "yield_farmer" then 75
  else if behavior = "defi_power_user" then 70
  else if behavior = "active_trader" then 50
  else if behavior = "dormant" then 30
  else 50

/-- Method `_calculate_behavior_score(metrics)`. -/
def calculate_behavior_score (metrics : WalletMetrics) : ℚ :=
  let base_score := behaviorBaseScore metrics.behavior_type
  let base_score :=
    if 3 ≤ metrics.defi_protocol_count then base_score + 5 else base_score
  let base_score :=
    if 50 ≤ metrics.transaction_count ∧ 365 ≤ metrics.wallet_age_days then
      base_score + 5
    else base_score
  min 100 base_score

/-- Method `_calculate_liquidity_score(metrics)`.  The method re-reads the ETH
price (served from the 5-minute cache populated moments earlier, hence the
same value) and the current time, so both are parameters here. -/
def calculate_liquidity_score (eth_price : ℚ) (now : ℤ)
    (metrics : WalletMetrics) : ℚ :=
  let eth_value := metrics.eth_balance * eth_price
  let score : ℚ :=
    if 50000 ≤ eth_value then 50 else eth_value / 50000 * 50
  let score :=
    if 10 ≤ metrics.token_count then score + 30
    else score + (metrics.token_count : ℚ) / 10 * 30
  let score :=
    match metrics.last_transaction_date with
    | none => score
    | some ts =>
      let days_since_tx := Int.fdiv (now - ts) 86400
      if days_since_tx ≤ 30 then score + 20
      else if days_since_tx ≤ 90 then score + 10
      else score
  min 100 score

/-- Method `_calculate_verification_score(metrics)`. -/
def calculate_verification_score (metrics : WalletMetrics) : ℚ :=
  let score : ℚ := 50
  let score := if metrics.has_ens then score + 30 else score
  let score := if 365 ≤ metrics.wallet_age_days then score + 10 else score
  let score := if 100 ≤ metrics.transaction_count then score + 10 else score
  min 100 score

/-! ### Risk tier, estimates, recommendations -/

/-- Method `_determine_risk_tier(overall_score, metrics)`. -/
def determine_risk_tier (overall_score : ℚ) (metrics : WalletMetrics) :
    RiskTier :=
  if 75 ≤ overall_score ∧ 100000 ≤ metrics.total_value_usd then .prime
  else if 60 ≤ overall_score ∧ 50000 ≤ metrics.total_value_usd then .near_prime
  else if 40 ≤ overall_score then .subprime
  else .unqualified

/-- The `positive_signals` list of `_generate_signals_and_flags`. -/
def generate_positive_signals (metrics : WalletMetrics)
    (stability : ℚ) : List String :=
  (if 100000 ≤ metrics.total_value_usd
    then ["Substantial crypto holdings (>$100k)"] else []) ++
  (if 730 ≤ metrics.wallet_age_days
    then ["Established wallet history (2+ years)"] else []) ++
  (if metrics.behavior_type = "hodler" ∨ metrics.behavior_type = "accumulator"
    then ["Favorable behavior pattern: " ++ metrics.behavior_type] else []) ++
  (if 70 ≤ metrics.diversification_score
    then ["Well-diversified portfolio"] else []) ++
  (if 3 ≤ metrics.defi_protocol_count
    then ["DeFi-savvy user (multiple protocols)"] else []) ++
  (if metrics.has_ens then ["ENS domain owner (identity signal)"] else []) ++
  (if 70 ≤ stability then ["High stability score"] else [])

/-- The `risk_flags` list of `_generate_signals_and_flags`. -/
def generate_risk_flags (metrics : WalletMetrics) : List String :=
  (if metrics.total_value_usd < 50000
    then ["Holdings below minimum threshold ($50k)"] else []) ++
  (if metrics.wallet_age_days < 180 then ["New wallet (< 6 months)"] else []) ++
  (if metrics.behavior_type = "active_trader"
    then ["High trading frequency (volatility risk)"] else []) ++
  (if 80 < metrics.largest_single_holding_pct
    then ["Concentrated position (>80% single asset)"] else []) ++
  (if metrics.transaction_count < 10
    then ["Limited transaction history"] else []) ++
  (if metrics.behavior_type = "dormant"
    then ["Dormant wallet (inactivity concern)"] else [])

/-- Method `_estimate_income(metrics)`. -/
def estimate_income (metrics : WalletMetrics) : ℚ :=
  let base_income : ℚ :=
    if 500000 ≤ metrics.total_value_usd then 200000
    else if 250000 ≤ metrics.total_value_usd then 150000
    else if 100000 ≤ metrics.total_value_usd then 100000
    else if 50000 ≤ metrics.total_value_usd then 75000
    else 50000
  let base_income :=
    if 3 ≤ metrics.defi_protocol_count then base_income * (12 / 10)
    else base_income
  let base_income :=
    if metrics.behavior_type = "accumulator" then base_income * (11 / 10)
    else base_income
  pyround 0 base_income

/-- The per-tier multiplier table of `_calculate_max_mortgage`. -/
def tierMultiplier : RiskTier → ℚ
  | .prime => 1
  | .near_prime => 85 / 100
  | .subprime => 70 / 100
  | .unqualified => 50 / 100

/-- Method `_calculate_max_mortgage(estimated_income, net_worth, risk_tier)`. -/
def calculate_max_mortgage (estimated_income net_worth : ℚ)
    (risk_tier : RiskTier) : ℚ :=
  let max_by_income := estimated_income * 5
  let max_by_assets := net_worth * (1 / 2)
  let base_max := min max_by_income max_by_assets
  pyround 0 (base_max * tierMultiplier risk_tier)

/-- The per-tier base LTV table of `_recommend_ltv`. -/
def baseLtv : RiskTier → ℚ
  | .prime => 80
  | .near_prime => 75
  | .subprime => 70
  | .unqualified => 60

/-- Method `_recommend_ltv(risk_tier, metrics)`. -/
def recommend_ltv (risk_tier : RiskTier) (metrics : WalletMetrics) : ℚ :=
  let ltv := baseLtv risk_tier
  if 730 ≤ metrics.wallet_age_days ∧ 70 ≤ metrics.diversification_score then
    min 85 (ltv + 5)
  else ltv

/-- Method `_generate_recommendations(metrics, risk_tier, scores)`. -/
def generate_recommendations (metrics : WalletMetrics)
    (risk_tier : RiskTier) (stability : ℚ) : List String :=
  (match risk_tier with
   | .prime =>
     ["High-priority prospect - initiate premium outreach",
      "Consider crypto-collateralized mortgage products"]
   | .near_prime =>
     ["Good prospect - standard qualification process"] ++
     (if stability < 70
       then ["Request additional holding period documentation"] else [])
   | .subprime =>
     ["Requires enhanced documentation"] ++
     (if metrics.total_value_usd < 50000
       then ["May need traditional income verification"] else [])
   | .unqualified =>
     ["Does not meet current qualification criteria",
      "Consider nurture campaign for future qualification"]) ++
  (if metrics.behavior_type = "active_trader"
    then ["Consider volatility-adjusted qualification"] else []) ++
  (if metrics.has_ens then [] else ["Request identity verification (no ENS)"])

/-- Method `_identify_contact_methods(metrics)`. -/
def identify_contact_methods (metrics : WalletMetrics) : List ContactMethod :=
  (match metrics.has_ens, metrics.ens_name with
   | true, some name =>
     [{ type := "ens", value := name,
        note := "Can message via ENS-linked channels" }]
   | _, _ => []) ++
  [{ type := "on_chain_message", value := metrics.address,
     note := "Can send on-chain message transaction" }] ++
  (if 0 < metrics.defi_protocol_count then
    [{ type := "defi_community", value := "Protocol Discord/Telegram",
       note := "Active in DeFi communities - consider targeted ads" }]
   else [])

/-- Method `_determine_outreach_priority(overall_score, metrics)`. -/
def determine_outreach_priority (overall_score : ℚ)
    (metrics : WalletMetrics) : String :=
  if 80 ≤ overall_score ∧ 250000 ≤ metrics.total_value_usd then "high"
  else if 60 ≤ overall_score ∧ 100000 ≤ metrics.total_value_usd then "medium"
  else "low"

/-! ### Scoring engine (`score_for_mortgage`) -/

/-- The unrounded weighted overall score computed in `score_for_mortgage`. -/
def overallOf (wealth stability behavior liquidity verification : ℚ) : ℚ :=
  wealth * WEALTH_WEIGHT + stability * STABILITY_WEIGHT +
  behavior * BEHAVIOR_WEIGHT + liquidity * LIQUIDITY_WEIGHT +
  verification * VERIFICATION_WEIGHT

/-- Method `score_for_mortgage(address)`. -/
def score_for_mortgage (env : Env) (address : String) :
    Except String MortgageQualificationScore :=
  match analyze_wallet env address with
  | .error e => .error e
  | .ok metrics =>
    let wealth_score := calculate_wealth_score metrics
    let stability_score := calculate_stability_score metrics
    let behavior_score := calculate_behavior_score metrics
    let liquidity_score := calculate_liquidity_score env.ethPrice env.now metrics
    let verification_score := calculate_verification_score metrics
    let overall_score :=
      overallOf wealth_score stability_score behavior_score liquidity_score
        verification_score
    let risk_tier := determine_risk_tier overall_score metrics
    let estimated_income := estimate_income metrics
    .ok {
      wallet_address := address
      overall_score := pyround 2 overall_score
      risk_tier := risk_tier.value
      wealth_score := pyround 2 wealth_score
      stability_score := pyround 2 stability_score
      behavior_score := pyround 2 behavior_score
      liquidity_score := pyround 2 liquidity_score
      verification_score := pyround 2 verification_score
      estimated_annual_income := estimated_income
      estimated_net_worth := metrics.total_value_usd
      max_mortgage_amount :=
        calculate_max_mortgage estimated_income metrics.total_value_usd risk_tier
      recommended_ltv := recommend_ltv risk_tier metrics
      positive_signals := generate_positive_signals metrics stability_score
      risk_flags := generate_risk_flags metrics
      recommendations := generate_recommendations metrics risk_tier stability_score
      contact_methods := identify_contact_methods metrics
      outreach_priority := determine_outreach_priority overall_score metrics }

/-! ### Prospecting orchestrator (`batch_analyze`, `discover_prospects`) -/

/-- Insert into a list already sorted by descending `key`, after the
existing elements of equal key.  (Because `sortDesc` folds from the right,
ties end up in the reverse of their input order, unlike Python's stable
`list.sort(key=..., reverse=True)`; no property proved below depends on
the relative order of equal keys.) -/
def insertDesc {α : Type} (key : α → ℚ) (x : α) : List α → List α
  | [] => [x]
  | y :: ys => if key y < key x then x :: y :: ys else y :: insertDesc key x ys

/-- Sort by descending `key` (insertion sort; the model of
`list.sort(key=..., reverse=True)` up to the order of equal keys, which
no claim fixes). -/
def sortDesc {α : Type} (key : α → ℚ) : List α → List α
  | [] => []
  | x :: xs => insertDesc key x (sortDesc key xs)

theorem mem_insertDesc {α : Type} (key : α → ℚ) (x : α) (l : List α) (a : α) :
    a ∈ insertDesc key x l ↔ a = x ∨ a ∈ l := by
  induction l with
  | nil => simp [insertDesc]
  | cons y ys ih =>
    unfold insertDesc
    split
    · simp
    · simp only [List.mem_cons, ih]
      tauto

theorem mem_sortDesc {α : Type} (key : α → ℚ) (l : List α) (a : α) :
    a ∈ sortDesc key l ↔ a ∈ l := by
  induction l with
  | nil => simp [sortDesc]
  | cons x xs ih => simp [sortDesc, mem_insertDesc, ih]

theorem pairwise_insertDesc {α : Type} (key : α → ℚ) (x : α) (l : List α)
    (h : l.Pairwise (fun a b => key b ≤ key a)) :
    (insertDesc key x l).Pairwise (fun a b => key b ≤ key a) := by
  induction l with
  | nil => simp [insertDesc]
  | cons y ys ih =>
    rw [List.pairwise_cons] at h
    unfold insertDesc
    split
    · rename_i hlt
      rw [List.pairwise_cons]
      refine ⟨fun b hb => ?_, List.pairwise_cons.mpr h⟩
      rcases List.mem_cons.mp hb with rfl | hb
      · exact le_of_lt hlt
      · exact le_trans (h.1 b hb) (le_of_lt hlt)
    · rename_i hge
      rw [List.pairwise_cons]
      refine ⟨fun b hb => ?_, ih h.2⟩
      rcases (mem_insertDesc key x ys b).mp hb with rfl | hb
      · exact le_of_not_lt hge
      · exact h.1 b hb

theorem pairwise_sortDesc {α : Type} (key : α → ℚ) (l : List α) :
    (sortDesc key l).Pairwise (fun a b => key b ≤ key a) := by
  induction l with
  | nil => simp [sortDesc]
  | cons x xs ih => exact pairwise_insertDesc key x _ ih

/-- One entry of the `batch_analyze` result list: either the dict of a
successful `score_for_mortgage`, or the
`{"wallet_address": ..., "error": str(e), "overall_score": 0}` record
appended when scoring that address raised. -/
inductive BatchRecord where
  | ok : MortgageQualificationScore → BatchRecord
  | err : String → String → BatchRecord
deriving DecidableEq

/-- Whether a batch record is a genuinely scored wallet (the `try` branch
of the `batch_analyze` loop) rather than a per-address error record. -/
def BatchRecord.isScored : BatchRecord → Bool
  | .ok _ => true
  | .err _ _ => false

/-- The sort key `x.get("overall_score", 0)` of a batch record. -/
def BatchRecord.overall : BatchRecord → ℚ
  | .ok score => score.overall_score
  | .err _ _ => 0

/-- The record `batch_analyze` appends for one address (the `try/except`
body of its loop). -/
def scoreRecord (env : Env) (address : String) : BatchRecord :=
  match score_for_mortgage env address with
  | .ok score => .ok score
  | .error e => .err address e

/-- Method `batch_analyze(addresses)`. -/
def batch_analyze (env : Env) (addresses : List String) : List BatchRecord :=
  sortDesc BatchRecord.overall (addresses.map (scoreRecord env))

/-- The `ProspectLead` built for one surviving address in
`discover_prospects`. -/
def buildLead (address : String) (metrics : WalletMetrics)
    (score : MortgageQualificationScore) : ProspectLead :=
  { wallet_address := address
    qualification_score := score.overall_score
    risk_tier := score.risk_tier
    estimated_value := metrics.total_value_usd
    behavior_type := metrics.behavior_type
    contact_methods := score.contact_methods
    last_active := metrics.last_transaction_date
    priority := score.outreach_priority
    notes := score.positive_signals.take 3 }

/-- The loop body of `discover_prospects` for one address: `none` when the
address is skipped (a raised exception, the value filter, or the score
filter), `some lead` otherwise. -/
def prospectStep (env : Env) (min_value_usd min_score : ℚ)
    (address : String) : Option ProspectLead :=
  match analyze_wallet env address with
  | .error _ => none
  | .ok metrics =>
    if metrics.total_value_usd < min_value_usd then none
    else
      match score_for_mortgage env address with
      | .error _ => none
      | .ok score =>
        if score.overall_score < min_score then none
        else some (buildLead address metrics score)

/-- Method `discover_prospects(min_value_usd, min_score, sample_addresses)`
(Python defaults: `min_value_usd=50000`, `min_score=60`,
`sample_addresses=None` i.e. the empty falsy case). -/
def discover_prospects (env : Env) (min_value_usd min_score : ℚ)
    (sample_addresses : List String) : List ProspectLead :=
  if sample_addresses.isEmpty then []
  else
    sortDesc ProspectLead.qualification_score
      (sample_addresses.filterMap (prospectStep env min_value_usd min_score))

/-! ### Price cache (`_get_eth_price`) -/

/-- The process-wide price-cache state:
`price` is `self._price_cache.get("eth_price")` (`none` = key absent) and
`expiry` is `self._cache_expiry.get("eth_price", 0)`. -/
structure PriceCache where
  price : Option ℚ
  expiry : ℚ
deriving DecidableEq

/-- Outcome of the external CoinGecko request:
* `netError` — `requests.get` raised (network error / timeout);
* `httpError` — a response with `status_code != 200`;
* `badJson` — a 200 response whose body `.json()` fails to parse;
* `payload usd` — a 200 response with a parsed JSON body, `usd` being the
  value found at `["ethereum"]["usd"]` when both keys are present. -/
inductive FetchResult where
  | netError : FetchResult
  | httpError : FetchResult
  | badJson : FetchResult
  | payload : Option ℚ → FetchResult
deriving DecidableEq

/-- The try-fetch part of `_get_eth_price` (after a cache miss). -/
def fetchPrice (fetch : FetchResult) (now : ℚ) (cache : PriceCache) :
    ℚ × PriceCache :=
  match fetch with
  | .payload usd =>
    let price := usd.getD 2500
    (price, { price := some price, expiry := now + 300 })
  | _ => (2500, cache)

/-- Method `_get_eth_price()`: returns the price and the updated cache state.
`fetch` is the outcome the external request would have if issued. -/
def get_eth_price (fetch : FetchResult) (now : ℚ) (cache : PriceCache) :
    ℚ × PriceCache :=
  match cache.price with
  | some p => if now < cache.expiry then (p, cache) else fetchPrice fetch now cache
  | none => fetchPrice fetch now cache

/-!
## Verification

The claims of the specification, settled against the embedding above.
-/

/-- The §3 data-model invariants on `WalletMetrics` that the spec's
"for all valid metrics" quantification ranges over: non-negative amounts,
ages and hold times, and a diversification percentage in `[0, 100]`. -/
def ValidMetrics (m : WalletMetrics) : Prop :=
  0 ≤ m.total_value_usd ∧ 0 ≤ m.eth_balance ∧ 0 ≤ m.wallet_age_days ∧
  0 ≤ m.avg_hold_time_days ∧
  0 ≤ m.diversification_score ∧ m.diversification_score ≤ 100

instance (m : WalletMetrics) : Decidable (ValidMetrics m) := by
  unfold ValidMetrics; infer_instance

theorem round_mono_q {x y : ℚ} (h : x ≤ y) : round x ≤ round y := by
  rw [round_eq, round_eq]
  exact Int.floor_mono (by linarith)

theorem pyround_mono (d : ℕ) {x y : ℚ} (h : x ≤ y) :
    pyround d x ≤ pyround d y := by
  unfold pyround
  have h10 : (0 : ℚ) < 10 ^ d := by positivity
  have hr := round_mono_q (mul_le_mul_of_nonneg_right h (le_of_lt h10))
  rw [qround_eq_round, qround_eq_round]
  gcongr

theorem pyround_intCast (d : ℕ) (n : ℤ) : pyround d (n : ℚ) = n := by
  unfold pyround
  rw [qround_eq_round]
  have hc : ((n : ℚ) * 10 ^ d) = ((n * 10 ^ d : ℤ) : ℚ) := by push_cast; ring
  rw [hc, round_intCast]
  have h10 : (0 : ℚ) < 10 ^ d := by positivity
  push_cast
  field_simp

theorem pyround_le_hundred (d : ℕ) (x : ℚ) (h : x ≤ 100) :
    pyround d x ≤ 100 := by
  have := pyround_mono d h
  rwa [show ((100 : ℚ)) = ((100 : ℤ) : ℚ) by norm_num, pyround_intCast] at this

theorem sub_tol_le_pyround (x : ℚ) : x - 1 / 200 ≤ pyround 2 x := by
  have h := abs_pyround_sub 2 x
  rw [abs_le] at h
  have h2 : (1 : ℚ) / (2 * 10 ^ 2) = 1 / 200 := by norm_num
  rw [h2] at h
  linarith [h.1]

/-! ### Component score bounds -/

theorem wealth_score_bounds (m : WalletMetrics)
    (hv : 0 ≤ m.total_value_usd) :
    0 ≤ calculate_wealth_score m ∧ calculate_wealth_score m ≤ 100 := by
  unfold calculate_wealth_score
  simp only []
  split_ifs with h1 h2 h3 h4 h5
  · exact ⟨le_min (by norm_num) (by positivity),
      le_trans (min_le_left _ _) (by norm_num)⟩
  · constructor <;> linarith
  · constructor <;> linarith
  · constructor <;> linarith
  · constructor <;> linarith
  · refine ⟨le_min (by norm_num) ?_, le_trans (min_le_left _ _) (by norm_num)⟩
    have : (0 : ℚ) ≤ min 5 ((m.total_value_usd - 1000000) / 1000000 * 5) :=
      le_min (by norm_num) (by push_neg at h5; linarith)
    linarith

set_option maxHeartbeats 1000000 in
theorem stability_score_bounds (m : WalletMetrics)
    (ha : 0 ≤ m.wallet_age_days) (hh : 0 ≤ m.avg_hold_time_days)
    (hd0 : 0 ≤ m.diversification_score) :
    0 ≤ calculate_stability_score m ∧ calculate_stability_score m ≤ 100 := by
  unfold calculate_stability_score
  simp only []
  refine ⟨le_min (by norm_num) ?_, min_le_left _ _⟩
  have ha' : (0 : ℚ) ≤ (m.wallet_age_days : ℚ) := by exact_mod_cast ha
  split_ifs <;> linarith

set_option maxHeartbeats 1000000 in
theorem behavior_score_bounds (m : WalletMetrics) :
    30 ≤ calculate_behavior_score m ∧ calculate_behavior_score m ≤ 100 := by
  unfold calculate_behavior_score behaviorBaseScore
  simp only []
  refine ⟨le_min (by norm_num) ?_, min_le_left _ _⟩
  split_ifs <;> norm_num

set_option maxHeartbeats 1000000 in
theorem liquidity_score_bounds (eth_price : ℚ) (now : ℤ) (m : WalletMetrics)
    (hb : 0 ≤ m.eth_balance) (hp : 0 ≤ eth_price) :
    0 ≤ calculate_liquidity_score eth_price now m ∧
      calculate_liquidity_score eth_price now m ≤ 100 := by
  unfold calculate_liquidity_score
  simp only []
  refine ⟨le_min (by norm_num) ?_, min_le_left _ _⟩
  have hev : (0 : ℚ) ≤ m.eth_balance * eth_price := mul_nonneg hb hp
  have htc : (0 : ℚ) ≤ (m.token_count : ℚ) := by positivity
  cases m.last_transaction_date <;> simp only [] <;> split_ifs <;> linarith

set_option maxHeartbeats 1000000 in
theorem verification_score_bounds (m : WalletMetrics) :
    50 ≤ calculate_verification_score m ∧
      calculate_verification_score m ≤ 100 := by
  unfold calculate_verification_score
  simp only []
  refine ⟨le_min (by norm_num) ?_, min_le_left _ _⟩
  split_ifs <;> norm_num

/-- Claim C1. For every valid `WalletMetrics` (the §3 data model) and any
non-negative reference price, each of the five component scores of
`score_for_mortgage` lies in `[0, 100]`; the five weights are the fixed
constants `0.30/0.25/0.20/0.15/0.10` summing to `1`; the overall score is
exactly the weighted sum `0.30·wealth + 0.25·stability + 0.20·behavior +
0.15·liquidity + 0.10·verification` of the components; and the stored
(2-decimal rounded) overall score differs from that weighted sum by at
most half an ulp (`1/200`). -/
theorem component_scores_valid (m : WalletMetrics) (eth_price : ℚ) (now : ℤ)
    (hm : ValidMetrics m) (hp : 0 ≤ eth_price) :
    (0 ≤ calculate_wealth_score m ∧ calculate_wealth_score m ≤ 100) ∧
    (0 ≤ calculate_stability_score m ∧ calculate_stability_score m ≤ 100) ∧
    (0 ≤ calculate_behavior_score m ∧ calculate_behavior_score m ≤ 100) ∧
    (0 ≤ calculate_liquidity_score eth_price now m ∧
      calculate_liquidity_score eth_price now m ≤ 100) ∧
    (0 ≤ calculate_verification_score m ∧
      calculate_verification_score m ≤ 100) ∧
    WEALTH_WEIGHT + STABILITY_WEIGHT + BEHAVIOR_WEIGHT + LIQUIDITY_WEIGHT +
      VERIFICATION_WEIGHT = 1 ∧
    overallOf (calculate_wealth_score m) (calculate_stability_score m)
        (calculate_behavior_score m) (calculate_liquidity_score eth_price now m)
        (calculate_verification_score m) =
      30 / 100 * calculate_wealth_score m +
      25 / 100 * calculate_stability_score m +
      20 / 100 * calculate_behavior_score m +
      15 / 100 * calculate_liquidity_score eth_price now m +
      10 / 100 * calculate_verification_score m ∧
    |pyround 2 (overallOf (calculate_wealth_score m)
        (calculate_stability_score m) (calculate_behavior_score m)
        (calculate_liquidity_score eth_price now m)
        (calculate_verification_score m)) -
      (30 / 100 * calculate_wealth_score m +
       25 / 100 * calculate_stability_score m +
       20 / 100 * calculate_behavior_score m +
       15 / 100 * calculate_liquidity_score eth_price now m +
       10 / 100 * calculate_verification_score m)| ≤ 1 / 200 := by
  obtain ⟨hv, hb, ha, hh, hd0, hd1⟩ := hm
  refine ⟨wealth_score_bounds m hv, stability_score_bounds m ha hh hd0,
    ⟨le_trans (by norm_num) (behavior_score_bounds m).1,
      (behavior_score_bounds m).2⟩,
    liquidity_score_bounds eth_price now m hb hp,
    ⟨le_trans (by norm_num) (verification_score_bounds m).1,
      (verification_score_bounds m).2⟩,
    by norm_num [WEALTH_WEIGHT, STABILITY_WEIGHT, BEHAVIOR_WEIGHT,
      LIQUIDITY_WEIGHT, VERIFICATION_WEIGHT],
    by unfold overallOf WEALTH_WEIGHT STABILITY_WEIGHT BEHAVIOR_WEIGHT
         LIQUIDITY_WEIGHT VERIFICATION_WEIGHT; ring, ?_⟩
  have hw : overallOf (calculate_wealth_score m) (calculate_stability_score m)
      (calculate_behavior_score m) (calculate_liquidity_score eth_price now m)
      (calculate_verification_score m) =
      30 / 100 * calculate_wealth_score m +
      25 / 100 * calculate_stability_score m +
      20 / 100 * calculate_behavior_score m +
      15 / 100 * calculate_liquidity_score eth_price now m +
      10 / 100 * calculate_verification_score m := by
    unfold overallOf WEALTH_WEIGHT STABILITY_WEIGHT BEHAVIOR_WEIGHT
      LIQUIDITY_WEIGHT VERIFICATION_WEIGHT
    ring
  rw [← hw]
  have h := abs_pyround_sub 2 (overallOf (calculate_wealth_score m)
    (calculate_stability_score m) (calculate_behavior_score m)
    (calculate_liquidity_score eth_price now m)
    (calculate_verification_score m))
  have h2 : (1 : ℚ) / (2 * 10 ^ 2) = 1 / 200 := by norm_num
  rwa [h2] at h

/-- Translation of the claimed priority-ordered behavior classification
(spec §4.3 (a)–(h)), written from the spec's wording, to be compared with
the source translation `classify_behavior`. -/
def classifyBehaviorSpec (transactions : List RawTx) (wallet_age_days : ℤ)
    (total_value : ℚ) : WalletBehavior :=
  if transactions.isEmpty then .dormant
  else if 1000000 ≤ total_value then .whale
  else if 3 ≤ defiProtocolsClassify transactions then .defi_power_user
  else if 20 < txPerMonth transactions.length wallet_age_days then .active_trader
  else if 2 ≤ txPerMonth transactions.length wallet_age_days ∧
    txPerMonth transactions.length wallet_age_days ≤ 10 then .accumulator
  else if txPerMonth transactions.length wallet_age_days < 2 ∧
    365 < wallet_age_days then .hodler
  else if txTextHasStakeOrFarm transactions then .yield_farmer
  else .accumulator

/-- Claim C2. Behavior classification is a deterministic total function
agreeing, on every `(transactions, wallet_age_days, total_value)` input,
with the spec's fixed priority order (a)–(h), and always returns one of
the seven behavior labels. -/
theorem classify_behavior_matches_spec (transactions : List RawTx)
    (wallet_age_days : ℤ) (total_value : ℚ) :
    classify_behavior transactions wallet_age_days total_value =
      classifyBehaviorSpec transactions wallet_age_days total_value ∧
    classify_behavior transactions wallet_age_days total_value ∈
      [WalletBehavior.hodler, .accumulator, .active_trader, .defi_power_user,
       .yield_farmer, .whale, .dormant] := by
  constructor
  · rfl
  · cases classify_behavior transactions wallet_age_days total_value <;> simp

/-- Claim C3. With tiers ranked `unqualified < subprime < near_prime <
prime`, the risk tier is monotone non-decreasing in the overall score at
fixed `total_value_usd`, and monotone non-decreasing in `total_value_usd`
at fixed overall score, over all non-negative inputs. -/
theorem risk_tier_monotone :
    (∀ (m : WalletMetrics) (s1 s2 : ℚ), 0 ≤ s1 → s1 ≤ s2 →
      (determine_risk_tier s1 m).rank ≤ (determine_risk_tier s2 m).rank) ∧
    (∀ (m m2 : WalletMetrics) (s : ℚ), 0 ≤ s → 0 ≤ m.total_value_usd →
      m.total_value_usd ≤ m2.total_value_usd →
      (determine_risk_tier s m).rank ≤ (determine_risk_tier s m2).rank) := by
  constructor
  · intro m s1 s2 _ h12
    unfold determine_risk_tier
    split_ifs <;> simp_all [RiskTier.rank] <;> linarith
  · intro m m2 s _ _ hval
    unfold determine_risk_tier
    split_ifs <;> simp_all [RiskTier.rank] <;> linarith

/-! ### Diversification and feature-extractor invariants -/

theorem foldl_max_le_add_sum (xs : List ℚ) :
    ∀ x : ℚ, 0 ≤ x → (∀ a ∈ xs, 0 ≤ a) → xs.foldl max x ≤ x + xs.sum := by
  induction xs with
  | nil => intro x _ _; simp
  | cons y ys ih =>
    intro x hx h
    have hy : 0 ≤ y := h y (by simp)
    have hall : ∀ a ∈ ys, 0 ≤ a := fun a ha => h a (by simp [ha])
    have h1 : List.foldl max (max x y) ys ≤ max x y + ys.sum :=
      ih (max x y) (le_trans hx (le_max_left x y)) hall
    have h2 : max x y ≤ x + y := max_le (by linarith) (by linarith)
    calc List.foldl max x (y :: ys) = List.foldl max (max x y) ys := rfl
      _ ≤ max x y + ys.sum := h1
      _ ≤ x + y + ys.sum := by linarith
      _ = x + (y :: ys).sum := by rw [List.sum_cons]; ring

theorem listMax_le_sum (l : List ℚ) (h : ∀ a ∈ l, 0 ≤ a) :
    listMax l ≤ l.sum := by
  cases l with
  | nil => simp [listMax]
  | cons x xs =>
    have hx : 0 ≤ x := h x (by simp)
    have := foldl_max_le_add_sum xs x hx (fun a ha => h a (by simp [ha]))
    simpa [listMax, List.sum_cons] using this

theorem holdingValue_nonneg (eth_usd : ℚ) (token_holdings : List RawTokenTx)
    (k : String) (h : 0 ≤ eth_usd) :
    0 ≤ holdingValue eth_usd token_holdings k := by
  unfold holdingValue
  split_ifs <;> positivity

theorem calculate_diversification_bounds (eth_balance : ℚ)
    (token_holdings : List RawTokenTx) (eth_price : ℚ)
    (h : 0 ≤ eth_balance * eth_price) :
    0 ≤ calculate_diversification eth_balance token_holdings eth_price ∧
      calculate_diversification eth_balance token_holdings eth_price ≤ 100 := by
  unfold calculate_diversification
  simp only []
  set keys := holdingsSymbols token_holdings with hkeys
  set vals := keys.map (holdingValue (eth_balance * eth_price) token_holdings)
    with hvals
  have hvnn : ∀ a ∈ vals, 0 ≤ a := by
    intro a ha
    rw [hvals] at ha
    obtain ⟨k, _, rfl⟩ := List.mem_map.mp ha
    exact holdingValue_nonneg _ _ _ h
  have hd0a : (0 : ℚ) ≤ min 100 ((keys.length : ℚ) / 20 * 100) :=
    le_min (by norm_num) (by positivity)
  have hd0b : min 100 ((keys.length : ℚ) / 20 * 100) ≤ 100 := min_le_left _ _
  split_ifs with h0 hpos hconc
  · norm_num
  · -- positive total value, concentration above one half
    have hmx : listMax vals / vals.sum ≤ 1 :=
      (div_le_one hpos).mpr (listMax_le_sum vals hvnn)
    refine ⟨pyround_nonneg 2 _ ?_, pyround_le_hundred 2 _ ?_⟩
    · apply mul_nonneg hd0a
      linarith
    · calc min 100 ((keys.length : ℚ) / 20 * 100) *
          (1 - (listMax vals / vals.sum - 1 / 2))
          ≤ min 100 ((keys.length : ℚ) / 20 * 100) * 1 := by
            apply mul_le_mul_of_nonneg_left (by linarith) hd0a
        _ ≤ 100 := by rw [mul_one]; exact hd0b
  · exact ⟨pyround_nonneg 2 _ hd0a, pyround_le_hundred 2 _ hd0b⟩
  · exact ⟨pyround_nonneg 2 _ hd0a, pyround_le_hundred 2 _ hd0b⟩

theorem dateInfo_age_nonneg (now : ℤ) (txs : List RawTx)
    (fd ld : Option ℤ) (age : ℤ)
    (hts : ∀ tx ∈ txs, ∀ n, parseTs tx.timeStamp = some n → n ≤ now)
    (h : dateInfo now txs = .ok (fd, ld, age)) : 0 ≤ age := by
  unfold dateInfo at h
  cases hL : txs.getLast? with
  | none =>
    rw [hL] at h
    cases hH : txs.head? <;> rw [hH] at h <;> simp_all
  | some tF =>
    rw [hL] at h
    cases hH : txs.head? with
    | none => rw [hH] at h; simp_all
    | some tL =>
      rw [hH] at h
      dsimp only at h
      cases hpF : parseTs tF.timeStamp with
      | none => rw [hpF] at h; simp_all
      | some nF =>
        cases hpL : parseTs tL.timeStamp with
        | none => rw [hpF, hpL] at h; simp_all
        | some nL =>
          rw [hpF, hpL] at h
          dsimp only at h
          simp only [Except.ok.injEq, Prod.mk.injEq] at h
          obtain ⟨-, -, hage⟩ := h
          have hF : nF ≤ now := hts tF (List.mem_of_getLast?_eq_some hL) nF hpF
          rw [← hage]
          split_ifs
          · exact Int.fdiv_nonneg (by linarith) (by norm_num)
          · exact le_refl 0

/-- The hypotheses of §3/§6 on provider responses for one address:
a non-negative reference price, a non-negative reported wei balance, and
no transaction timestamped in the future. -/
def WellFormedEnv (env : Env) (address : String) : Prop :=
  0 ≤ env.ethPrice ∧
  (∀ wei, env.balance address = BalanceResp.ok wei → 0 ≤ wei) ∧
  (∀ tx ∈ env.txs address, ∀ n, parseTs tx.timeStamp = some n → n ≤ env.now)

theorem analyze_wallet_valid (env : Env) (address : String)
    (m : WalletMetrics) (hwf : WellFormedEnv env address)
    (h : analyze_wallet env address = .ok m) : ValidMetrics m := by
  obtain ⟨hp, hbal, hts⟩ := hwf
  unfold analyze_wallet at h
  simp only [] at h
  cases hdi : dateInfo env.now (env.txs address) with
  | error e => rw [hdi] at h; simp_all
  | ok triple =>
    obtain ⟨fd, ld, age⟩ := triple
    rw [hdi] at h
    have heb : 0 ≤ (match env.balance address with
        | BalanceResp.ok wei => (wei : ℚ) / 1000000000000000000
        | BalanceResp.fail => 0) := by
      cases hb : env.balance address with
      | fail => norm_num
      | ok wei =>
        have := hbal wei hb
        have hw : (0 : ℚ) ≤ (wei : ℚ) := by exact_mod_cast this
        positivity
    have htv0 : 0 ≤ (match env.balance address with
        | BalanceResp.ok wei => (wei : ℚ) / 1000000000000000000
        | BalanceResp.fail => 0) * env.ethPrice := mul_nonneg heb hp
    have hage : 0 ≤ age := dateInfo_age_nonneg env.now (env.txs address)
      fd ld age hts hdi
    simp only [Except.ok.injEq] at h
    subst h
    refine ⟨?_, pyround_nonneg 4 _ heb, hage, ?_, ?_, ?_⟩
    · apply pyround_nonneg 2
      have hmin : (0 : ℚ) ≤ min
          (((((env.tokenTxs address).map RawTokenTx.tokenSymbol).dedup.length :
            ℕ) : ℚ) * 1000)
          ((match env.balance address with
            | BalanceResp.ok wei => (wei : ℚ) / 1000000000000000000
            | BalanceResp.fail => 0) * env.ethPrice * (1 / 2)) :=
        le_min (by positivity) (by linarith)
      linarith
    · apply pyround_nonneg 1
      split_ifs with hpos
      · have : (0 : ℚ) ≤ (age : ℚ) := by exact_mod_cast hage
        positivity
      · exact le_refl 0
    · exact (calculate_diversification_bounds _ _ _ htv0).1
    · exact (calculate_diversification_bounds _ _ _ htv0).2

/-- Claim C9, amended.  For provider responses that are well formed in the
§6 sense — non-negative reported balance, non-negative price, no
transaction timestamped in the future — every `WalletMetrics` returned by
`analyze_wallet` has non-negative `total_value_usd` and `eth_balance`, and
non-negative integer `token_count`, `nft_count`, `transaction_count`,
`wallet_age_days`, `defi_protocol_count` and `staking_positions`.  (The
unamended claim, over arbitrary provider data, is refuted by the
counterexample: a provider may report a negative balance.) -/
theorem analyze_wallet_fields_nonneg (env : Env) (address : String)
    (m : WalletMetrics) (hwf : WellFormedEnv env address)
    (h : analyze_wallet env address = .ok m) :
    0 ≤ m.total_value_usd ∧ 0 ≤ m.eth_balance ∧
    0 ≤ (m.token_count : ℤ) ∧ 0 ≤ (m.nft_count : ℤ) ∧
    0 ≤ (m.transaction_count : ℤ) ∧ 0 ≤ m.wallet_age_days ∧
    0 ≤ (m.defi_protocol_count : ℤ) ∧ 0 ≤ (m.staking_positions : ℤ) := by
  obtain ⟨h1, h2, h3, -, -, -⟩ := analyze_wallet_valid env address m hwf h
  exact ⟨h1, h2, Int.natCast_nonneg _, Int.natCast_nonneg _,
    Int.natCast_nonneg _, h3, Int.natCast_nonneg _, Int.natCast_nonneg _⟩

/-! ### Scoring-engine consequences -/

theorem score_for_mortgage_ok (env : Env) (address : String)
    (s : MortgageQualificationScore)
    (h : score_for_mortgage env address = .ok s) :
    ∃ m, analyze_wallet env address = .ok m ∧
      s.overall_score = pyround 2 (overallOf (calculate_wealth_score m)
        (calculate_stability_score m) (calculate_behavior_score m)
        (calculate_liquidity_score env.ethPrice env.now m)
        (calculate_verification_score m)) := by
  unfold score_for_mortgage at h
  cases ha : analyze_wallet env address with
  | error e => rw [ha] at h; simp_all
  | ok m =>
    rw [ha] at h
    simp only [Except.ok.injEq] at h
    subst h
    exact ⟨m, rfl, rfl⟩

theorem overall_ge_eleven (m : WalletMetrics) (eth_price : ℚ) (now : ℤ)
    (hm : ValidMetrics m) (hp : 0 ≤ eth_price) :
    11 ≤ overallOf (calculate_wealth_score m) (calculate_stability_score m)
      (calculate_behavior_score m) (calculate_liquidity_score eth_price now m)
      (calculate_verification_score m) := by
  obtain ⟨hv, hb, ha, hh, hd0, hd1⟩ := hm
  have hw := wealth_score_bounds m hv
  have hs := stability_score_bounds m ha hh hd0
  have hbeh := behavior_score_bounds m
  have hl := liquidity_score_bounds eth_price now m hb hp
  have hver := verification_score_bounds m
  unfold overallOf WEALTH_WEIGHT STABILITY_WEIGHT BEHAVIOR_WEIGHT
    LIQUIDITY_WEIGHT VERIFICATION_WEIGHT
  nlinarith [hw.1, hs.1, hbeh.1, hl.1, hver.1]

/-- Claim C10, amended.  Unconditionally, `verification_score ≥ 50` and
`behavior_score ≥ 30` for every metrics record; but the claim's further
inference only holds on the §3 data model: for valid metrics and a
non-negative price the weighted overall score is at least
`0.20·30 + 0.10·50 = 11`, and consequently, over *well-formed* provider
data, a batch record whose `overall_score` is `0` can only be a
per-address error record, never a scored wallet.  (The unamended claim is
refuted by the counterexample: under malformed provider data — a negative
reported balance — the wealth and liquidity components go negative, a
genuinely scored wallet's overall drops below 11, and a tuned balance
makes a scored record's rounded `overall_score` exactly `0`.) -/
theorem scored_wallet_overall_floor :
    (∀ m : WalletMetrics, 50 ≤ calculate_verification_score m) ∧
    (∀ m : WalletMetrics, 30 ≤ calculate_behavior_score m) ∧
    (∀ (m : WalletMetrics) (eth_price : ℚ) (now : ℤ), ValidMetrics m →
      0 ≤ eth_price →
      11 ≤ overallOf (calculate_wealth_score m) (calculate_stability_score m)
        (calculate_behavior_score m)
        (calculate_liquidity_score eth_price now m)
        (calculate_verification_score m)) ∧
    (∀ (env : Env) (addresses : List String) (r : BatchRecord),
      (∀ a ∈ addresses, WellFormedEnv env a) →
      r ∈ batch_analyze env addresses → BatchRecord.overall r = 0 →
      ∃ a msg, r = BatchRecord.err a msg) := by
  refine ⟨fun m => (verification_score_bounds m).1,
    fun m => (behavior_score_bounds m).1,
    fun m p now hm hp => overall_ge_eleven m p now hm hp,
    fun env addresses r hwf hr hzero => ?_⟩
  unfold batch_analyze at hr
  rw [mem_sortDesc] at hr
  obtain ⟨a, ha, rfl⟩ := List.mem_map.mp hr
  unfold scoreRecord
  cases hs : score_for_mortgage env a with
  | error e => exact ⟨a, e, rfl⟩
  | ok s =>
    exfalso
    unfold scoreRecord at hzero
    rw [hs] at hzero
    dsimp only [BatchRecord.overall] at hzero
    obtain ⟨m, hm, hoeq⟩ := score_for_mortgage_ok env a s hs
    have hvalid := analyze_wallet_valid env a m (hwf a ha) hm
    have h11 := overall_ge_eleven m env.ethPrice env.now hvalid
      (hwf a ha).1
    have := sub_tol_le_pyround (overallOf (calculate_wealth_score m)
      (calculate_stability_score m) (calculate_behavior_score m)
      (calculate_liquidity_score env.ethPrice env.now m)
      (calculate_verification_score m))
    have hpos : 0 < s.overall_score := by rw [hoeq]; linarith
    linarith [hzero, hpos]

/-! ### Orchestrator properties -/

/-- Claim C7.  The output of `batch_analyze` is sorted in descending order
of the `overall_score` sort key (error records count as `0`); equal keys
carry no guaranteed relative order. -/
theorem batch_analyze_sorted_desc (env : Env) (addresses : List String) :
    (batch_analyze env addresses).Pairwise
      (fun x y => BatchRecord.overall y ≤ BatchRecord.overall x) := by
  unfold batch_analyze
  exact pairwise_sortDesc _ _

/-- Claim C6.  A scoring failure for one address yields a zero-score error
record carrying that address and the error message, and aborts nothing:
the record of every address of the input list is still present in the
output of `batch_analyze`. -/
theorem batch_analyze_isolates_failures (env : Env)
    (addresses : List String) (a : String) (msg : String)
    (ha : a ∈ addresses) (herr : score_for_mortgage env a = .error msg) :
    BatchRecord.err a msg ∈ batch_analyze env addresses ∧
    (BatchRecord.err a msg).overall = 0 ∧
    ∀ b ∈ addresses, scoreRecord env b ∈ batch_analyze env addresses := by
  refine ⟨?_, rfl, ?_⟩
  · unfold batch_analyze
    rw [mem_sortDesc]
    exact List.mem_map.mpr ⟨a, ha, by unfold scoreRecord; rw [herr]⟩
  · intro b hb
    unfold batch_analyze
    rw [mem_sortDesc]
    exact List.mem_map_of_mem _ hb

/-- Claim C4.  Every lead returned by `discover_prospects` satisfies both
filters: its `estimated_value` is at least `min_value_usd` and its
`qualification_score` is at least `min_score`. -/
theorem discover_prospects_respects_thresholds (env : Env)
    (min_value_usd min_score : ℚ) (sample_addresses : List String)
    (lead : ProspectLead)
    (h : lead ∈ discover_prospects env min_value_usd min_score
      sample_addresses) :
    min_value_usd ≤ lead.estimated_value ∧
      min_score ≤ lead.qualification_score := by
  unfold discover_prospects at h
  split_ifs at h with hempty
  · cases h
  · rw [mem_sortDesc] at h
    obtain ⟨a, _, hstep⟩ := List.mem_filterMap.mp h
    unfold prospectStep at hstep
    cases hA : analyze_wallet env a with
    | error e => rw [hA] at hstep; simp at hstep
    | ok metrics =>
      rw [hA] at hstep
      simp only [] at hstep
      split_ifs at hstep with hval
      cases hS : score_for_mortgage env a with
      | error e => rw [hS] at hstep; simp at hstep
      | ok score =>
        rw [hS] at hstep
        simp only [] at hstep
        split_ifs at hstep with hsc
        simp only [Option.some.injEq] at hstep
        subst hstep
        unfold buildLead
        push_neg at hval hsc
        exact ⟨hval, hsc⟩

/-! ### Price cache (C5) -/

/-- The failure modes listed by the claim: network error, non-success
HTTP status, and a malformed payload (either a body that is not JSON, or
a JSON body without the expected `ethereum.usd` entry). -/
def listedFetchFailure : FetchResult → Prop
  | .payload (some _) => False
  | _ => True

/-- Claim C5, amended.  On a network error, a non-success HTTP status, or a
body that fails JSON parsing, `_get_eth_price` leaves the cache state
unchanged, and returns the fixed fallback `2500` whenever the cached entry
was absent or expired (so the next call retries the live fetch).  However
— the correction forced by the counterexample — a 200 JSON response that
merely lacks the `ethereum.usd` entry produces the default `2500` *and
stores it in the cache* with a fresh 300-second expiry. -/
theorem price_fetch_failure_cache (fetch : FetchResult) (now : ℚ)
    (cache : PriceCache)
    (hfail : fetch = .netError ∨ fetch = .httpError ∨ fetch = .badJson) :
    (get_eth_price fetch now cache).2 = cache ∧
    ((cache.price = none ∨ cache.expiry ≤ now) →
      (get_eth_price fetch now cache).1 = 2500) ∧
    (∀ c : PriceCache, c.price = none →
      get_eth_price (.payload none) now c =
        (2500, { price := some 2500, expiry := now + 300 })) := by
  have hfp : fetchPrice fetch now cache = (2500, cache) := by
    rcases hfail with rfl | rfl | rfl <;> rfl
  refine ⟨?_, ?_, ?_⟩
  · unfold get_eth_price
    cases hc : cache.price with
    | none => dsimp only; rw [hfp]
    | some p =>
      dsimp only
      split_ifs
      · rfl
      · rw [hfp]
  · intro hmiss
    unfold get_eth_price
    cases hc : cache.price with
    | none => dsimp only; rw [hfp]
    | some p =>
      dsimp only
      rcases hmiss with hnone | hexp
      · rw [hc] at hnone; cases hnone
      · rw [if_neg (not_lt.mpr hexp), hfp]
  · intro c hcnone
    unfold get_eth_price
    rw [hcnone]
    rfl

/-! ### Concrete environments, witnesses and counterexamples -/

instance exceptDecEq {ε α : Type} [DecidableEq ε] [DecidableEq α] :
    DecidableEq (Except ε α) := fun a b =>
  match a, b with
  | .error e, .error f =>
    if h : e = f then .isTrue (by rw [h]) else .isFalse (by simp [h])
  | .ok x, .ok y =>
    if h : x = y then .isTrue (by rw [h]) else .isFalse (by simp [h])
  | .error _, .ok _ => .isFalse (by simp)
  | .ok _, .error _ => .isFalse (by simp)

/-- Scenario of C8: every provider failed or returned empty data (balance
lookup failed, no transactions, no token transfers, price fetch fell back
to 2500). -/
def envFail : Env :=
  { ethPrice := 2500, balance := fun _ => .fail, txs := fun _ => [],
    tokenTxs := fun _ => [], now := 1700000000 }

/-- The metrics `analyze_wallet` produces under `envFail`: note the
non-zero `largest_single_holding_pct` and `diversification_score`. -/
def mFail : WalletMetrics :=
  { address := "0xempty", total_value_usd := 0, eth_balance := 0,
    token_count := 0, nft_count := 0, first_transaction_date := none,
    last_transaction_date := none, transaction_count := 0,
    wallet_age_days := 0, avg_hold_time_days := 0,
    largest_single_holding_pct := 100, defi_protocol_count := 0,
    staking_positions := 0, has_ens := false, ens_name := none,
    behavior_type := "dormant", diversification_score := 5 }

/-- An environment where the balance provider reports a negative wei
balance (perfectly possible "arbitrary provider data": the code parses the
`result` string with `int()` and never clamps it). -/
def envNeg : Env :=
  { ethPrice := 2500,
    balance := fun _ => .ok (-1000000000000000000),
    txs := fun _ => [], tokenTxs := fun _ => [], now := 1700000000 }

/-- The metrics `analyze_wallet` produces under `envNeg`: a negative
`eth_balance` (−1 ETH) and a negative `total_value_usd`. -/
def mNeg : WalletMetrics :=
  { address := "0xneg", total_value_usd := -3750, eth_balance := -1,
    token_count := 0, nft_count := 0, first_transaction_date := none,
    last_transaction_date := none, transaction_count := 0,
    wallet_age_days := 0, avg_hold_time_days := 0,
    largest_single_holding_pct := 100, defi_protocol_count := 0,
    staking_positions := 0, has_ens := false, ens_name := none,
    behavior_type := "dormant", diversification_score := 5 }

/-- A two-address environment: scoring `"A"` raises (its one transaction
carries an unparsable `timeStamp`), while `"B"` scores normally (a 100 ETH
balance). -/
def envTwo : Env :=
  { ethPrice := 2500,
    balance := fun a => if a = "B" then .ok 100000000000000000000 else .fail,
    txs := fun a =>
      if a = "A" then
        [{ toAddr := "0xdef", functionName := "", timeStamp := .garbage,
           payload := "" }]
      else [],
    tokenTxs := fun _ => [], now := 1700000000 }

/-- The lead `discover_prospects` builds for `"B"` under `envTwo` with
thresholds `(0, 0)`. -/
def leadB : ProspectLead :=
  { wallet_address := "B", qualification_score := 3969 / 100,
    risk_tier := "unqualified", estimated_value := 250000,
    behavior_type := "dormant",
    contact_methods :=
      [{ type := "on_chain_message", value := "B",
         note := "Can send on-chain message transaction" }],
    last_active := none, priority := "low",
    notes := ["Substantial crypto holdings (>$100k)"] }

/-- An all-zero metrics record satisfying the §3 data-model invariants. -/
def metrics0 : WalletMetrics :=
  { address := "0x0", total_value_usd := 0, eth_balance := 0,
    token_count := 0, nft_count := 0, first_transaction_date := none,
    last_transaction_date := none, transaction_count := 0,
    wallet_age_days := 0, avg_hold_time_days := 0,
    largest_single_holding_pct := 100, defi_protocol_count := 0,
    staking_positions := 0, has_ens := false, ens_name := none,
    behavior_type := "dormant", diversification_score := 0 }

section ConcreteEvaluation

attribute [local semireducible] Rat.add Rat.mul Rat.sub Rat.inv
  Rat.ofScientific

/-- Witness for C1 at the all-zero valid metrics record (price 2500). -/
theorem component_scores_valid_witness :
    (0 ≤ calculate_wealth_score metrics0 ∧
      calculate_wealth_score metrics0 ≤ 100) ∧
    (0 ≤ calculate_stability_score metrics0 ∧
      calculate_stability_score metrics0 ≤ 100) ∧
    (0 ≤ calculate_behavior_score metrics0 ∧
      calculate_behavior_score metrics0 ≤ 100) ∧
    (0 ≤ calculate_liquidity_score 2500 0 metrics0 ∧
      calculate_liquidity_score 2500 0 metrics0 ≤ 100) ∧
    (0 ≤ calculate_verification_score metrics0 ∧
      calculate_verification_score metrics0 ≤ 100) ∧
    WEALTH_WEIGHT + STABILITY_WEIGHT + BEHAVIOR_WEIGHT + LIQUIDITY_WEIGHT +
      VERIFICATION_WEIGHT = 1 ∧
    overallOf (calculate_wealth_score metrics0)
        (calculate_stability_score metrics0)
        (calculate_behavior_score metrics0)
        (calculate_liquidity_score 2500 0 metrics0)
        (calculate_verification_score metrics0) =
      30 / 100 * calculate_wealth_score metrics0 +
      25 / 100 * calculate_stability_score metrics0 +
      20 / 100 * calculate_behavior_score metrics0 +
      15 / 100 * calculate_liquidity_score 2500 0 metrics0 +
      10 / 100 * calculate_verification_score metrics0 ∧
    |pyround 2 (overallOf (calculate_wealth_score metrics0)
        (calculate_stability_score metrics0)
        (calculate_behavior_score metrics0)
        (calculate_liquidity_score 2500 0 metrics0)
        (calculate_verification_score metrics0)) -
      (30 / 100 * calculate_wealth_score metrics0 +
       25 / 100 * calculate_stability_score metrics0 +
       20 / 100 * calculate_behavior_score metrics0 +
       15 / 100 * calculate_liquidity_score 2500 0 metrics0 +
       10 / 100 * calculate_verification_score metrics0)| ≤ 1 / 200 :=
  component_scores_valid metrics0 2500 0 (by decide) (by decide)

/-- Witness for C3: the tier at score 50 is at most the tier at score 70
(value held fixed at the all-zero metrics). -/
theorem risk_tier_monotone_witness :
    (determine_risk_tier 50 metrics0).rank ≤
      (determine_risk_tier 70 metrics0).rank :=
  risk_tier_monotone.1 metrics0 50 70 (by decide) (by decide)

/-- Witness for C4: the lead discovered for `"B"` under `envTwo` with
thresholds `(0, 0)` satisfies both thresholds. -/
theorem discover_prospects_witness :
    (0 : ℚ) ≤ leadB.estimated_value ∧
      (0 : ℚ) ≤ leadB.qualification_score :=
  discover_prospects_respects_thresholds envTwo 0 0 ["A", "B"] leadB
    (by decide)

/-- Witness for C5 at a concrete hard failure (network error, empty
cache). -/
theorem price_fetch_failure_cache_witness :
    (get_eth_price .netError 0 ⟨none, 0⟩).2 = (⟨none, 0⟩ : PriceCache) ∧
    (get_eth_price .netError 0 ⟨none, 0⟩).1 = 2500 :=
  ⟨(price_fetch_failure_cache .netError 0 ⟨none, 0⟩ (Or.inl rfl)).1,
   (price_fetch_failure_cache .netError 0 ⟨none, 0⟩ (Or.inl rfl)).2.1
     (Or.inl rfl)⟩

/-- Counterexample for C5: a 200 JSON payload without the `ethereum.usd`
entry is one of the claim's "malformed payload" failures, yet the call
does update the cache (it stores the fallback 2500 with a fresh expiry),
refuting the claim as stated. -/
theorem malformed_payload_updates_cache :
    ¬ (∀ (fetch : FetchResult) (now : ℚ) (cache : PriceCache),
        listedFetchFailure fetch →
        (cache.price = none ∨ cache.expiry ≤ now) →
        get_eth_price fetch now cache = (2500, cache)) := by
  intro hclaim
  have h := hclaim (.payload none) 0 ⟨none, 0⟩ trivial (Or.inl rfl)
  exact absurd h (by decide)

/-- Witness for C6: under `envTwo`, scoring `"A"` raises, the batch output
contains its zero-score error record, and `"B"` is still scored. -/
theorem batch_analyze_isolates_failures_witness :
    BatchRecord.err "A" "invalid literal for int() with base 10" ∈
        batch_analyze envTwo ["A", "B"] ∧
    (BatchRecord.err "A" "invalid literal for int() with base 10").overall
        = 0 ∧
    scoreRecord envTwo "B" ∈ batch_analyze envTwo ["A", "B"] :=
  ⟨(batch_analyze_isolates_failures envTwo ["A", "B"] "A"
      "invalid literal for int() with base 10" (by decide) rfl).1,
   (batch_analyze_isolates_failures envTwo ["A", "B"] "A"
      "invalid literal for int() with base 10" (by decide) rfl).2.1,
   (batch_analyze_isolates_failures envTwo ["A", "B"] "A"
      "invalid literal for int() with base 10" (by decide) rfl).2.2 "B"
     (by decide)⟩

/-- Claim C8, amended.  When every provider fails or returns empty data,
`analyze_wallet` returns the all-`dormant` metrics whose numeric fields
are all zero *except* `diversification_score = 5` and
`largest_single_holding_pct = 100`, and `score_for_mortgage` still
completes, with net worth 0, wealth score 0, risk tier `unqualified` and
outreach priority `low`. -/
theorem empty_providers_analysis :
    analyze_wallet envFail "0xempty" = .ok mFail ∧
    mFail.behavior_type = "dormant" ∧ mFail.total_value_usd = 0 ∧
    mFail.eth_balance = 0 ∧ mFail.token_count = 0 ∧
    mFail.transaction_count = 0 ∧ mFail.wallet_age_days = 0 ∧
    mFail.avg_hold_time_days = 0 ∧ mFail.diversification_score = 5 ∧
    mFail.largest_single_holding_pct = 100 ∧
    (score_for_mortgage envFail "0xempty").toOption.map (fun s =>
      (s.wealth_score, s.estimated_net_worth, s.risk_tier,
       s.outreach_priority)) = some (0, 0, "unqualified", "low") := by
  decide

/-- Counterexample for C8: the metrics returned for the all-failed
environment do **not** have all numeric fields zero —
`diversification_score` is 5 and `largest_single_holding_pct` is 100. -/
theorem empty_providers_not_all_zero :
    analyze_wallet envFail "0xempty" = .ok mFail ∧
    mFail.diversification_score ≠ 0 ∧
    mFail.largest_single_holding_pct ≠ 0 := by
  decide

/-- Witness for C9 (amended) at the all-failed (hence well-formed)
environment. -/
theorem analyze_wallet_fields_nonneg_witness :
    0 ≤ mFail.total_value_usd ∧ 0 ≤ mFail.eth_balance ∧
    0 ≤ (mFail.token_count : ℤ) ∧ 0 ≤ (mFail.nft_count : ℤ) ∧
    0 ≤ (mFail.transaction_count : ℤ) ∧ 0 ≤ mFail.wallet_age_days ∧
    0 ≤ (mFail.defi_protocol_count : ℤ) ∧
    0 ≤ (mFail.staking_positions : ℤ) :=
  analyze_wallet_fields_nonneg envFail "0xempty" mFail
    ⟨by decide,
     fun wei h => BalanceResp.noConfusion h,
     fun tx htx => absurd htx (List.not_mem_nil tx)⟩
    (by decide)

/-- Counterexample for C9: with arbitrary provider data (here a negative
reported wei balance) `analyze_wallet` returns metrics with a negative
`eth_balance` and a negative `total_value_usd`. -/
theorem analyze_wallet_negative_balance :
    analyze_wallet envNeg "0xneg" = .ok mNeg ∧
    mNeg.eth_balance < 0 ∧ mNeg.total_value_usd < 0 := by
  decide

/-- An environment whose balance provider reports a tuned negative wei
balance (−10.8336 ETH): the resulting genuinely scored record's rounded
`overall_score` is exactly `0`. -/
def envZero : Env :=
  { ethPrice := 2500, balance := fun _ => .ok (-10833600000000000000),
    txs := fun _ => [], tokenTxs := fun _ => [], now := 1700000000 }

/-- Counterexample for C10: under the same malformed-data family as the
C9 counterexample (a negative reported balance), `score_for_mortgage`
completes and returns a genuinely scored record with overall score
`10.33 < 11`; and at the tuned balance of `envZero` the scored record's
rounded `overall_score` is exactly `0`, so the single record of
`batch_analyze envZero` has sort key `0` without being an error record —
refuting both halves of the unamended claim. -/
theorem scored_wallet_below_eleven :
    (score_for_mortgage envNeg "0xneg").toOption.map
        (fun s => s.overall_score) = some (1033 / 100) ∧
    ¬ (11 ≤ (1033 : ℚ) / 100) ∧
    (score_for_mortgage envZero "0xzero").toOption.map
        (fun s => s.overall_score) = some 0 ∧
    (batch_analyze envZero ["0xzero"]).map BatchRecord.overall = [0] ∧
    (batch_analyze envZero ["0xzero"]).all BatchRecord.isScored = true := by
  decide

/-- Witness for C10 (amended) at the all-zero valid metrics record: the
weighted overall score is exactly its floor 11. -/
theorem scored_wallet_overall_floor_witness :
    11 ≤ overallOf (calculate_wealth_score metrics0)
      (calculate_stability_score metrics0)
      (calculate_behavior_score metrics0)
      (calculate_liquidity_score 2500 0 metrics0)
      (calculate_verification_score metrics0) :=
  scored_wallet_overall_floor.2.2.1 metrics0 2500 0 (by decide) (by decide)

end ConcreteEvaluation

end Seraphai
